import Mathlib

/-!
Shallow embedding of the QAStudio pytest reporter
(`src/qastudio_pytest/plugin.py` and `src/qastudio_pytest/api_client.py`).

The embedding models the run-lifecycle orchestrator (`QAStudioPlugin`) as
pure state-passing functions that additionally emit a trace of observable
events (network calls, `close()`, log lines).  Network behaviour is a
parameter (`Oracle`): each network method's outcome for this session.
The helper modules `models.py` and `utils.py` are imported by the plugin
but are not among the sources; the definitions taken from them are marked
`Modelled from the spec:` in their doc comments.
-/

namespace QAStudio

/-- Modelled from the spec: the test-status enum lives in `models.py`,
which is not among the sources.  Spec §3 fixes the outcome statuses as
exactly `passed | failed | skipped | error`. -/
inductive Status where
  | passed
  | failed
  | skipped
  | error
deriving DecidableEq, Repr

/-- The string payload of a status member, as compared by
`pytest_runtest_makereport` (`result.status.value == "passed"` etc.). -/
def Status.value : Status → String
  | .passed => "passed"
  | .failed => "failed"
  | .skipped => "skipped"
  | .error => "error"

/-- Modelled from the spec: `TestResult` lives in `models.py`, not among
the sources.  Only the fields the plugin inspects are kept: a test
identifier and the outcome status (spec §3). -/
structure TestResult where
  name : String
  status : Status
deriving DecidableEq, Repr

/-- Modelled from the spec: `TestRunSummary` lives in `models.py`, not
among the sources.  Aggregate counts plus the session duration (spec §3);
the duration is wall-clock time, modelled as an abstract number. -/
structure TestRunSummary where
  total : Nat
  passed : Nat
  failed : Nat
  skipped : Nat
  errors : Nat
  duration : Nat
deriving DecidableEq, Repr

/-- `APIError` from `api_client.py`: an HTTP-status-like code plus a
message. -/
structure APIError where
  status_code : Nat
  message : String
deriving DecidableEq, Repr

/-- The configuration fields the plugin's control flow inspects
(`ReporterConfig` lives in `models.py`; the fields and their meaning are
fixed by spec §3 and by how `plugin.py` reads them). -/
structure ReporterConfig where
  create_test_run : Bool
  test_run_id : Option String
  batch_size : Nat
  silent : Bool
  verbose : Bool
deriving DecidableEq, Repr

/-- Python truthiness of an `Optional[str]`: `None` and the empty string
are falsy (`not self.config.test_run_id`, `not self.test_run_id`). -/
def optFalsy : Option String → Bool
  | none => true
  | some s => s == ""

/-- Modelled from the spec: `batch_list` lives in `utils.py`, not among
the sources.  Spec §2/§8 describe it as a pure function partitioning a
sequence into fixed-size, order-preserving chunks: `ceil(n/b)` of them,
each of size at most `b`.  A zero batch size (rejected by configuration
validation per spec §4.1) is given an empty partition here. -/
def batch_list (xs : List α) (b : Nat) : List (List α) :=
  if _hb : b = 0 then []
  else if hx : xs.isEmpty then []
  else xs.take b :: batch_list (xs.drop b) b
termination_by xs.length
decreasing_by
  simp only [List.length_drop]
  have hnil : xs ≠ [] := by
    intro h
    rw [h] at hx
    exact hx rfl
  have hlen : 0 < xs.length := List.length_pos.mpr hnil
  omega

/-- Observable events of one session, in emission order: network requests
(the attempt is recorded whether or not the oracle fails it), the
session `close()`, verbose log lines (`_log`), and the error line printed
by `_handle_error` in silent mode. -/
inductive Event where
  | createRunCall
  | submitCall (i : Nat) (batch : List TestResult)
  | completeCall (s : TestRunSummary)
  | closeCall
  | logMsg
  | errorLog
deriving DecidableEq, Repr

/-- Mutable fields of `QAStudioPlugin` (its `__init__` state).  Wall-clock
fields are abstracted to a number. -/
structure PluginState where
  test_run_id : Option String
  results : List TestResult
  total_tests : Nat
  passed_tests : Nat
  failed_tests : Nat
  skipped_tests : Nat
  error_tests : Nat
  session_duration : Nat
deriving DecidableEq, Repr

/-- The state built by `QAStudioPlugin.__init__`: no run id, no results,
all counters zero. -/
def initState : PluginState :=
  { test_run_id := none, results := [], total_tests := 0, passed_tests := 0,
    failed_tests := 0, skipped_tests := 0, error_tests := 0, session_duration := 0 }

/-- The remote service's behaviour for this session: the outcome of the
create-run request, of the submission request per (1-based) batch label,
and of the complete-run request.  `createRun`'s payload is
`response.get("id")`: `none` when the body has no `id` field. -/
structure Oracle where
  createRun : Except APIError (Option String)
  submitBatch : Nat → Except APIError Unit
  completeRun : Except APIError Unit

/-- The plain `Exception` that `_handle_error` raises in non-silent mode,
wrapping the original error.  It is deliberately distinct from `APIError`:
`pytest_sessionfinish`'s `except APIError` clause does not catch it. -/
inductive Raised where
  | wrapped (e : APIError)
deriving DecidableEq, Repr

/-- One `self._log(...)` call site: prints a line only in verbose mode. -/
def logIf (cfg : ReporterConfig) : List Event :=
  if cfg.verbose then [Event.logMsg] else []

/-- `QAStudioPlugin._handle_error`: in silent mode print an error line and
continue; otherwise raise a wrapping `Exception`. -/
def handle_error (cfg : ReporterConfig) (e : APIError) :
    List Event × Except Raised Unit :=
  if cfg.silent then ([Event.errorLog], Except.ok ())
  else ([], Except.error (Raised.wrapped e))

/-- `QAStudioPlugin.pytest_sessionstart`: maybe create a run (or adopt the
configured id), applying the error policy on `APIError`.  Returns the
emitted events, the updated plugin state, and whether an error propagated
to the caller. -/
def pytest_sessionstart (cfg : ReporterConfig) (ora : Oracle)
    (st : PluginState) : List Event × PluginState × Except Raised Unit :=
  let pre := logIf cfg ++ logIf cfg
  if cfg.create_test_run && optFalsy cfg.test_run_id then
    match ora.createRun with
    | Except.ok resp =>
        (pre ++ [Event.createRunCall] ++ logIf cfg,
         { st with test_run_id := resp }, Except.ok ())
    | Except.error e =>
        let h := handle_error cfg e
        (pre ++ [Event.createRunCall] ++ h.1, st, h.2)
  else
    (pre ++ logIf cfg, { st with test_run_id := cfg.test_run_id }, Except.ok ())

/-- The loop body of `QAStudioPlugin._submit_results`: submit each batch
in sequence with 1-based labels (`enumerate(batches, 1)`); an `APIError`
on one batch goes through the error policy, which in silent mode logs and
moves to the next batch and in non-silent mode raises, abandoning the
remaining batches. -/
def submitBatches (cfg : ReporterConfig) (ora : Oracle) :
    Nat → List (List TestResult) → List Event × Except Raised Unit
  | _, [] => ([], Except.ok ())
  | i, b :: bs =>
    match ora.submitBatch i with
    | Except.ok _ =>
        let rest := submitBatches cfg ora (i + 1) bs
        (logIf cfg ++ [Event.submitCall i b] ++ rest.1, rest.2)
    | Except.error e =>
        if cfg.silent then
          let rest := submitBatches cfg ora (i + 1) bs
          (logIf cfg ++ [Event.submitCall i b] ++ [Event.errorLog] ++ rest.1, rest.2)
        else
          (logIf cfg ++ [Event.submitCall i b], Except.error (Raised.wrapped e))

/-- `QAStudioPlugin._submit_results`: nothing to do on an empty result
list; otherwise partition with `batch_list` and submit each batch. -/
def submit_results (cfg : ReporterConfig) (ora : Oracle)
    (results : List TestResult) : List Event × Except Raised Unit :=
  if results.isEmpty then (logIf cfg, Except.ok ())
  else
    let r := submitBatches cfg ora 1 (batch_list results cfg.batch_size)
    (logIf cfg ++ r.1, r.2)

/-- `TestRunSummary(...)` as built in `pytest_sessionfinish` from the
plugin's counters. -/
def mkSummary (st : PluginState) : TestRunSummary :=
  { total := st.total_tests, passed := st.passed_tests, failed := st.failed_tests,
    skipped := st.skipped_tests, errors := st.error_tests,
    duration := st.session_duration }

/-- `QAStudioPlugin.pytest_sessionfinish`: log the tallies; return early
(without touching the client) when the held run id is falsy; otherwise
submit the batches, attempt completion, route `APIError` from completion
through the error policy, and in all of those paths run the `finally`
that closes the client. -/
def pytest_sessionfinish (cfg : ReporterConfig) (ora : Oracle)
    (st : PluginState) : List Event × Except Raised Unit :=
  let pre := logIf cfg ++ logIf cfg ++ logIf cfg
  if optFalsy st.test_run_id then
    (pre ++ logIf cfg, Except.ok ())
  else
    let sub := submit_results cfg ora st.results
    match sub.2 with
    | Except.error e => (pre ++ sub.1 ++ [Event.closeCall], Except.error e)
    | Except.ok _ =>
      match ora.completeRun with
      | Except.ok _ =>
          (pre ++ sub.1 ++ [Event.completeCall (mkSummary st)] ++ logIf cfg
             ++ [Event.closeCall], Except.ok ())
      | Except.error e =>
          let h := handle_error cfg e
          (pre ++ sub.1 ++ [Event.completeCall (mkSummary st)] ++ h.1
             ++ [Event.closeCall], h.2)

/-- One finished-test report reaching `pytest_runtest_makereport`: the
phase string (`report.when`) and the behaviour of
`TestResult.from_pytest_report` on it.  Modelled from the spec: the
constructor lives in `models.py`, not among the sources; spec §4.4 only
requires that it either builds the entity or raises, so its outcome is
carried on the report. -/
structure Report where
  when : String
  buildResult : Except String TestResult

/-- `QAStudioPlugin.pytest_runtest_makereport` after `yield`: on the
`call` phase, build the result, append it and bump the counters; any
exception while doing so is caught and only logged.  Other phases are
ignored. -/
def pytest_runtest_makereport (cfg : ReporterConfig) (st : PluginState)
    (r : Report) : List Event × PluginState :=
  if r.when == "call" then
    match r.buildResult with
    | Except.ok res =>
        (logIf cfg,
         { st with
            results := st.results ++ [res],
            total_tests := st.total_tests + 1,
            passed_tests :=
              if res.status.value == "passed" then st.passed_tests + 1
              else st.passed_tests,
            failed_tests :=
              if res.status.value == "failed" then st.failed_tests + 1
              else st.failed_tests,
            skipped_tests :=
              if res.status.value == "skipped" then st.skipped_tests + 1
              else st.skipped_tests,
            error_tests :=
              if res.status.value == "error" then st.error_tests + 1
              else st.error_tests })
    | Except.error _ => (logIf cfg, st)
  else ([], st)

/-- Fold `pytest_runtest_makereport` over a sequence of reports. -/
def processReports (cfg : ReporterConfig) (st : PluginState) :
    List Report → PluginState
  | [] => st
  | r :: rs => processReports cfg (pytest_runtest_makereport cfg st r).2 rs

/-- Events that touch the API client: network requests or `close()`. -/
def Event.touchesClient : Event → Bool
  | .createRunCall => true
  | .submitCall _ _ => true
  | .completeCall _ => true
  | .closeCall => true
  | .logMsg => false
  | .errorLog => false

/-- The counter invariant of spec §8: the total equals the sum of the
per-status counters, and also equals the number of accumulated results. -/
def counterInv (st : PluginState) : Prop :=
  st.total_tests =
      st.passed_tests + st.failed_tests + st.skipped_tests + st.error_tests ∧
  st.total_tests = st.results.length

/-! Concrete fixtures used to exercise the definitions on closed inputs. -/

/-- A silent-mode configuration with an existing run id and batch size 2. -/
def cfgSilent : ReporterConfig :=
  { create_test_run := false, test_run_id := some "run-1", batch_size := 2,
    silent := true, verbose := false }

/-- A non-silent configuration that asks for run creation. -/
def cfgRaise : ReporterConfig :=
  { create_test_run := true, test_run_id := none, batch_size := 2,
    silent := false, verbose := false }

/-- A configuration with both the run-creation flag and an existing id. -/
def cfgCreateWithId : ReporterConfig :=
  { create_test_run := true, test_run_id := some "run-1", batch_size := 2,
    silent := true, verbose := false }

/-- Three sample results: one passed, one failed, one skipped. -/
def sampleResults : List TestResult :=
  [{ name := "t1", status := Status.passed },
   { name := "t2", status := Status.failed },
   { name := "t3", status := Status.skipped }]

/-- A 503 error fixture. -/
def err503 : APIError := { status_code := 503, message := "Service Unavailable" }

/-- An oracle for which every request succeeds. -/
def oraOk : Oracle :=
  { createRun := Except.ok (some "new-run"), submitBatch := fun _ => Except.ok (),
    completeRun := Except.ok () }

/-- An oracle that fails only the first submission batch. -/
def oraBatch1Fails : Oracle :=
  { createRun := Except.ok (some "new-run"),
    submitBatch := fun i => if i = 1 then Except.error err503 else Except.ok (),
    completeRun := Except.ok () }

/-- An oracle whose create-run request fails. -/
def oraCreateFails : Oracle :=
  { createRun := Except.error err503, submitBatch := fun _ => Except.ok (),
    completeRun := Except.ok () }

/-- An oracle whose complete-run request fails. -/
def oraCompleteFails : Oracle :=
  { createRun := Except.ok (some "new-run"), submitBatch := fun _ => Except.ok (),
    completeRun := Except.error err503 }

/-- An oracle whose create-run request succeeds with a body lacking `id`. -/
def oraNoIdField : Oracle :=
  { createRun := Except.ok none, submitBatch := fun _ => Except.ok (),
    completeRun := Except.ok () }

/-- A plugin state holding a run id and the three sample results. -/
def stThree : PluginState :=
  { initState with
    test_run_id := some "run-1", results := sampleResults,
    total_tests := 3, passed_tests := 1, failed_tests := 1, skipped_tests := 1 }

/-- A plugin state holding a run id but no results. -/
def stEmptyRun : PluginState := { initState with test_run_id := some "run-1" }

/-- A setup-phase report. -/
def rptSetup : Report :=
  { when := "setup", buildResult := Except.ok { name := "t0", status := Status.passed } }

/-- A call-phase report whose result construction raises. -/
def rptBuildFails : Report :=
  { when := "call", buildResult := Except.error "boom" }

/-! ### Facts about the batching utility -/

theorem batch_list_nil (b : Nat) : batch_list ([] : List α) b = [] := by
  rw [batch_list]
  simp

theorem batch_list_cons (xs : List α) (b : Nat) (hb : b ≠ 0) (hx : xs ≠ []) :
    batch_list xs b = xs.take b :: batch_list (xs.drop b) b := by
  rw [batch_list]
  rw [dif_neg hb, dif_neg (by simp [List.isEmpty_iff, hx])]

theorem batch_list_flatten (b : Nat) (hb : b ≠ 0) (xs : List α) :
    (batch_list xs b).flatten = xs := by
  generalize hn : xs.length = n
  induction n using Nat.strong_induction_on generalizing xs with
  | _ n ih =>
    by_cases hx : xs = []
    · subst hx
      rw [batch_list_nil]
      rfl
    · rw [batch_list_cons xs b hb hx]
      have hlt : (xs.drop b).length < n := by
        simp only [List.length_drop]
        have := List.length_pos.mpr hx
        omega
      have ih2 := ih (xs.drop b).length hlt (xs.drop b) rfl
      simp only [List.flatten_cons, ih2]
      exact List.take_append_drop b xs

theorem batch_list_sizes (b : Nat) (hb : b ≠ 0) (xs : List α) :
    ∀ c ∈ batch_list xs b, c.length ≤ b := by
  generalize hn : xs.length = n
  induction n using Nat.strong_induction_on generalizing xs with
  | _ n ih =>
    by_cases hx : xs = []
    · subst hx
      rw [batch_list_nil]
      intro c hc
      cases hc
    · rw [batch_list_cons xs b hb hx]
      have hlt : (xs.drop b).length < n := by
        simp only [List.length_drop]
        have := List.length_pos.mpr hx
        omega
      intro c hc
      cases hc with
      | head =>
          simp only [List.length_take]
          exact min_le_left _ _
      | tail _ hmem => exact ih (xs.drop b).length hlt (xs.drop b) rfl c hmem

theorem batch_list_length (b : Nat) (hb : b ≠ 0) (xs : List α) :
    (batch_list xs b).length = (xs.length + b - 1) / b := by
  generalize hn : xs.length = n
  induction n using Nat.strong_induction_on generalizing xs with
  | _ n ih =>
    subst hn
    by_cases hx : xs = []
    · subst hx
      rw [batch_list_nil]
      simp only [List.length_nil, Nat.zero_add]
      rw [Nat.div_eq_of_lt (by omega)]
    · rw [batch_list_cons xs b hb hx]
      have hpos : 0 < xs.length := List.length_pos.mpr hx
      have hlt : (xs.drop b).length < xs.length := by
        simp only [List.length_drop]
        omega
      have ih2 := ih (xs.drop b).length hlt (xs.drop b) rfl
      simp only [List.length_cons, ih2, List.length_drop]
      rcases Nat.lt_or_ge xs.length b with h | h
      · have h1 : xs.length - b + b - 1 = b - 1 := by omega
        have h2 : (b - 1) / b = 0 := Nat.div_eq_of_lt (by omega)
        have h3 : xs.length + b - 1 = (xs.length - 1) + b := by omega
        have h4 : (xs.length - 1) / b = 0 := Nat.div_eq_of_lt (by omega)
        rw [h1, h2, h3, Nat.add_div_right _ (by omega), h4]
      · have h3 : xs.length - b + b - 1 = xs.length - 1 := by omega
        have h4 : xs.length + b - 1 = (xs.length - 1) + b := by omega
        rw [h3, h4, Nat.add_div_right _ (by omega)]

/-- C1: for every accumulated result list and every positive batch size
`b`, `batch_list` yields `ceil(n/b)` batches, each of size at most `b`,
and concatenating the batches in order restores the original sequence. -/
theorem batching_partitions_correctly (xs : List TestResult) (b : Nat)
    (hb : 0 < b) :
    (batch_list xs b).length = (xs.length + b - 1) / b ∧
    (∀ c ∈ batch_list xs b, c.length ≤ b) ∧
    (batch_list xs b).flatten = xs :=
  ⟨batch_list_length b (Nat.pos_iff_ne_zero.mp hb) xs,
   batch_list_sizes b (Nat.pos_iff_ne_zero.mp hb) xs,
   batch_list_flatten b (Nat.pos_iff_ne_zero.mp hb) xs⟩

/-- C1 witness: the partition of the three sample results with batch
size 2. -/
theorem batching_partitions_correctly_witness :
    0 < 2 ∧
    ((batch_list sampleResults 2).length = (sampleResults.length + 2 - 1) / 2 ∧
     (∀ c ∈ batch_list sampleResults 2, c.length ≤ 2) ∧
     (batch_list sampleResults 2).flatten = sampleResults) :=
  ⟨by decide, batching_partitions_correctly sampleResults 2 (by decide)⟩

/-! ### Facts about `pytest_runtest_makereport` -/

theorem logIf_events (cfg : ReporterConfig) : ∀ e ∈ logIf cfg, e = Event.logMsg := by
  unfold logIf
  split
  · intro e he
    simpa using he
  · intro e he
    cases he

theorem makereport_step_inv (cfg : ReporterConfig) (st : PluginState)
    (r : Report) (h : counterInv st) :
    counterInv (pytest_runtest_makereport cfg st r).2 := by
  obtain ⟨h1, h2⟩ := h
  unfold pytest_runtest_makereport
  split
  · cases hb : r.buildResult with
    | ok res =>
        obtain ⟨nm, s⟩ := res
        cases s <;>
          simp [counterInv, Status.value, h1, h2] <;> omega
    | error e => exact ⟨h1, h2⟩
  · exact ⟨h1, h2⟩

theorem processReports_inv (cfg : ReporterConfig) :
    ∀ (rs : List Report) (st : PluginState), counterInv st →
      counterInv (processReports cfg st rs)
  | [], _, h => h
  | r :: rs, st, h =>
      processReports_inv cfg rs _ (makereport_step_inv cfg st r h)

/-- C5: after any number of `on_test_finished` calls starting from the
freshly initialized plugin, `total == passed + failed + skipped + error`,
and the total equals the length of the accumulated result sequence. -/
theorem counters_consistent (cfg : ReporterConfig) (rs : List Report) :
    counterInv (processReports cfg initState rs) :=
  processReports_inv cfg rs initState ⟨rfl, rfl⟩

/-- C8: processing one finished-test report never touches the API client
(no network I/O, no close), never propagates an exception (the step is a
total function), and when building the result entity fails the
accumulated state is left untouched. -/
theorem makereport_isolated (cfg : ReporterConfig) (st : PluginState)
    (r : Report) :
    (∀ e ∈ (pytest_runtest_makereport cfg st r).1, e.touchesClient = false) ∧
    (∀ msg, r.buildResult = Except.error msg →
      (pytest_runtest_makereport cfg st r).2 = st) := by
  constructor
  · intro e he
    unfold pytest_runtest_makereport at he
    have hlog : e = Event.logMsg := by
      split at he
      · cases hb : r.buildResult with
        | ok res =>
            rw [hb] at he
            exact logIf_events cfg e he
        | error msg =>
            rw [hb] at he
            exact logIf_events cfg e he
      · cases he
    rw [hlog]
    rfl
  · intro msg hmsg
    unfold pytest_runtest_makereport
    split
    · rw [hmsg]
    · rfl

/-- C8 witness: a call-phase report whose result construction raises is
caught, leaving the accumulated state untouched. -/
theorem makereport_isolated_witness :
    rptBuildFails.buildResult = Except.error "boom" ∧
    (pytest_runtest_makereport cfgSilent stThree rptBuildFails).2 = stThree :=
  ⟨rfl, (makereport_isolated cfgSilent stThree rptBuildFails).2 "boom" rfl⟩

/-- C9: a report from a non-`call` phase leaves the plugin state untouched
and emits nothing, and any single report grows the accumulated results by
at most one entry. -/
theorem call_phase_filter (cfg : ReporterConfig) (st : PluginState)
    (r : Report) :
    ((r.when == "call") = false →
      pytest_runtest_makereport cfg st r = ([], st)) ∧
    (pytest_runtest_makereport cfg st r).2.results.length ≤
      st.results.length + 1 := by
  constructor
  · intro h
    unfold pytest_runtest_makereport
    simp [h]
  · unfold pytest_runtest_makereport
    split
    · cases hb : r.buildResult with
      | ok res => simp
      | error msg => simp
    · simp

/-- C9 witness: a setup-phase report is a no-op. -/
theorem call_phase_filter_witness :
    (rptSetup.when == "call") = false ∧
    pytest_runtest_makereport cfgSilent stThree rptSetup = ([], stThree) :=
  ⟨by decide, (call_phase_filter cfgSilent stThree rptSetup).1 (by decide)⟩

/-! ### Facts about `pytest_sessionstart` and the no-run-id finish path -/

theorem sessionfinish_skips (cfg : ReporterConfig) (ora : Oracle)
    (st : PluginState) (h : optFalsy st.test_run_id = true) :
    (∀ e ∈ (pytest_sessionfinish cfg ora st).1, e = Event.logMsg) ∧
    (pytest_sessionfinish cfg ora st).2 = Except.ok () := by
  constructor
  · intro e he
    unfold pytest_sessionfinish at he
    simp only [h, if_true] at he
    simp only [List.mem_append] at he
    rcases he with ((h1 | h1) | h1) | h1 <;> exact logIf_events cfg e h1
  · unfold pytest_sessionfinish
    simp only [h, if_true]

/-- C4 counterexample: with the run-creation flag set and an existing run
id configured, `pytest_sessionstart` issues no create-run call and adopts
the configured id, contrary to the claim that a configured id is ignored
at creation time whenever the flag is true. -/
theorem create_run_not_issued_despite_flag :
    cfgCreateWithId.create_test_run = true ∧
    Event.createRunCall ∉ (pytest_sessionstart cfgCreateWithId oraOk initState).1 ∧
    (pytest_sessionstart cfgCreateWithId oraOk initState).2.1.test_run_id =
      some "run-1" := by
  decide

/-- C4 (amended): a create-run call is issued iff the run-creation flag
is true AND the configured run id is absent or empty; whenever that
conjunction fails the configured id is adopted verbatim, with no
create-run call. -/
theorem create_run_call_iff (cfg : ReporterConfig) (ora : Oracle)
    (st : PluginState) :
    (Event.createRunCall ∈ (pytest_sessionstart cfg ora st).1 ↔
      cfg.create_test_run = true ∧ optFalsy cfg.test_run_id = true) ∧
    ((cfg.create_test_run && optFalsy cfg.test_run_id) = false →
      (pytest_sessionstart cfg ora st).2.1.test_run_id = cfg.test_run_id) := by
  cases hc : cfg.create_test_run && optFalsy cfg.test_run_id with
  | true =>
      constructor
      · constructor
        · intro _
          rw [Bool.and_eq_true] at hc
          exact hc
        · intro _
          unfold pytest_sessionstart
          simp only [hc, if_true]
          cases hcr : ora.createRun <;> simp [List.mem_append]
      · intro hfalse
        exact Bool.noConfusion hfalse
  | false =>
      constructor
      · constructor
        · intro hmem
          unfold pytest_sessionstart at hmem
          simp only [hc, Bool.false_eq_true, if_false] at hmem
          simp only [List.mem_append] at hmem
          rcases hmem with (h1 | h1) | h1 <;>
            exact Event.noConfusion (logIf_events cfg _ h1)
        · intro hand
          rw [hand.1, hand.2] at hc
          exact Bool.noConfusion hc
      · intro _
        unfold pytest_sessionstart
        simp only [hc, Bool.false_eq_true, if_false]


/-- C4 witness: with the run-creation flag off and an id configured, the
configured id is adopted and no create-run call happens. -/
theorem create_run_call_iff_witness :
    (cfgSilent.create_test_run && optFalsy cfgSilent.test_run_id) = false ∧
    (pytest_sessionstart cfgSilent oraOk initState).2.1.test_run_id =
      cfgSilent.test_run_id :=
  ⟨by decide, (create_run_call_iff cfgSilent oraOk initState).2 (by decide)⟩

/-- C6: with silent mode off, a failing create-run call makes
`pytest_sessionstart` propagate a wrapped error, leaves the run id unset,
and any later `pytest_sessionfinish` on that state submits nothing. -/
theorem nonsilent_create_failure (cfg : ReporterConfig) (ora ora2 : Oracle)
    (e : APIError) (hs : cfg.silent = false) (hc : cfg.create_test_run = true)
    (hid : optFalsy cfg.test_run_id = true)
    (he : ora.createRun = Except.error e) :
    (pytest_sessionstart cfg ora initState).2.2 =
      Except.error (Raised.wrapped e) ∧
    (pytest_sessionstart cfg ora initState).2.1.test_run_id = none ∧
    ∀ i b, Event.submitCall i b ∉
      (pytest_sessionfinish cfg ora2
        (pytest_sessionstart cfg ora initState).2.1).1 := by
  have hcc : (cfg.create_test_run && optFalsy cfg.test_run_id) = true := by
    rw [hc, hid]
    rfl
  have hstart : pytest_sessionstart cfg ora initState =
      (logIf cfg ++ logIf cfg ++ [Event.createRunCall] ++ (handle_error cfg e).1,
       initState, (handle_error cfg e).2) := by
    unfold pytest_sessionstart
    simp only [hcc, if_true, he]
  have herr : handle_error cfg e = ([], Except.error (Raised.wrapped e)) := by
    unfold handle_error
    simp only [hs, Bool.false_eq_true, if_false]
  rw [hstart, herr]
  refine ⟨rfl, rfl, ?_⟩
  intro i b hmem
  have hlog := (sessionfinish_skips cfg ora2 initState rfl).1 _ hmem
  exact Event.noConfusion hlog

/-- C6 witness: the non-silent fixture with a failing create-run
request. -/
theorem nonsilent_create_failure_witness :
    cfgRaise.silent = false ∧
    oraCreateFails.createRun = Except.error err503 ∧
    (pytest_sessionstart cfgRaise oraCreateFails initState).2.2 =
      Except.error (Raised.wrapped err503) :=
  ⟨rfl, rfl,
   (nonsilent_create_failure cfgRaise oraCreateFails oraOk err503
     rfl rfl rfl rfl).1⟩

/-- C10: a successful create-run response whose body lacks an `id` field
leaves the run id as `none` without raising, and the session finish then
skips submission, completion and close, emitting only log lines. -/
theorem create_run_response_without_id (cfg : ReporterConfig)
    (ora ora2 : Oracle) (hc : cfg.create_test_run = true)
    (hid : optFalsy cfg.test_run_id = true)
    (hok : ora.createRun = Except.ok none) :
    (pytest_sessionstart cfg ora initState).2.2 = Except.ok () ∧
    (pytest_sessionstart cfg ora initState).2.1.test_run_id = none ∧
    (∀ e ∈ (pytest_sessionfinish cfg ora2
        (pytest_sessionstart cfg ora initState).2.1).1, e = Event.logMsg) ∧
    (pytest_sessionfinish cfg ora2
        (pytest_sessionstart cfg ora initState).2.1).2 = Except.ok () := by
  have hcc : (cfg.create_test_run && optFalsy cfg.test_run_id) = true := by
    rw [hc, hid]
    rfl
  have hstart : pytest_sessionstart cfg ora initState =
      (logIf cfg ++ logIf cfg ++ [Event.createRunCall] ++ logIf cfg,
       { initState with test_run_id := none }, Except.ok ()) := by
    unfold pytest_sessionstart
    simp only [hcc, if_true, hok]
  rw [hstart]
  exact ⟨rfl, rfl,
    (sessionfinish_skips cfg ora2 { initState with test_run_id := none } rfl).1,
    (sessionfinish_skips cfg ora2 { initState with test_run_id := none } rfl).2⟩

/-- C10 witness: the create-run oracle answering a body with no `id`. -/
theorem create_run_response_without_id_witness :
    oraNoIdField.createRun = Except.ok none ∧
    (pytest_sessionstart cfgRaise oraNoIdField initState).2.1.test_run_id =
      none :=
  ⟨rfl,
   (create_run_response_without_id cfgRaise oraNoIdField oraOk
     rfl rfl rfl).2.1⟩

/-! ### Facts about `_submit_results` and `pytest_sessionfinish` -/

theorem handle_error_silent (cfg : ReporterConfig) (e : APIError)
    (hs : cfg.silent = true) :
    handle_error cfg e = ([Event.errorLog], Except.ok ()) := by
  unfold handle_error
  rw [hs]
  rfl

theorem handle_error_events (cfg : ReporterConfig) (e : APIError) :
    ∀ ev ∈ (handle_error cfg e).1, ev = Event.errorLog := by
  unfold handle_error
  split
  · intro ev h
    simpa using h
  · intro ev h
    cases h

theorem submitBatches_events (cfg : ReporterConfig) (ora : Oracle) :
    ∀ (bs : List (List TestResult)) (i : Nat),
      ∀ e ∈ (submitBatches cfg ora i bs).1,
        e = Event.logMsg ∨ e = Event.errorLog ∨ ∃ j b, e = Event.submitCall j b
  | [], _ => by
      intro e he
      cases he
  | b :: bs, i => by
      intro e he
      have ih := submitBatches_events cfg ora bs (i + 1)
      unfold submitBatches at he
      cases hsb : ora.submitBatch i with
      | ok u =>
          rw [hsb] at he
          simp only [List.mem_append] at he
          rcases he with (h1 | h1) | h1
          · exact Or.inl (logIf_events cfg e h1)
          · simp only [List.mem_singleton] at h1
            exact Or.inr (Or.inr ⟨i, b, h1⟩)
          · exact ih e h1
      | error eo =>
          rw [hsb] at he
          cases hsil : cfg.silent with
          | true =>
              rw [hsil] at he
              simp only [if_true, List.mem_append] at he
              rcases he with ((h1 | h1) | h1) | h1
              · exact Or.inl (logIf_events cfg e h1)
              · simp only [List.mem_singleton] at h1
                exact Or.inr (Or.inr ⟨i, b, h1⟩)
              · simp only [List.mem_singleton] at h1
                exact Or.inr (Or.inl h1)
              · exact ih e h1
          | false =>
              rw [hsil] at he
              simp only [Bool.false_eq_true, if_false, List.mem_append] at he
              rcases he with h1 | h1
              · exact Or.inl (logIf_events cfg e h1)
              · simp only [List.mem_singleton] at h1
                exact Or.inr (Or.inr ⟨i, b, h1⟩)

theorem submitBatches_silent_ok (cfg : ReporterConfig) (ora : Oracle)
    (hs : cfg.silent = true) :
    ∀ (bs : List (List TestResult)) (i : Nat),
      (submitBatches cfg ora i bs).2 = Except.ok () ∧
      ∀ j (h : j < bs.length),
        Event.submitCall (i + j) (bs.get ⟨j, h⟩) ∈ (submitBatches cfg ora i bs).1
  | [], i => by
      refine ⟨rfl, ?_⟩
      intro j h
      cases h
  | b :: bs, i => by
      have ih := submitBatches_silent_ok cfg ora hs bs (i + 1)
      unfold submitBatches
      cases hsb : ora.submitBatch i with
      | ok u =>
          refine ⟨ih.1, ?_⟩
          intro j h
          cases j with
          | zero =>
              simp [List.mem_append]
          | succ j' =>
              have hj' : j' < bs.length := by
                simpa using h
              have hmem := ih.2 j' hj'
              have hidx : i + (j' + 1) = (i + 1) + j' := by omega
              simp only [List.get_cons_succ, hidx, List.mem_append]
              exact Or.inr hmem
      | error eo =>
          rw [hs]
          simp only [if_true]
          refine ⟨ih.1, ?_⟩
          intro j h
          cases j with
          | zero =>
              simp [List.mem_append]
          | succ j' =>
              have hj' : j' < bs.length := by
                simpa using h
              have hmem := ih.2 j' hj'
              have hidx : i + (j' + 1) = (i + 1) + j' := by omega
              simp only [List.get_cons_succ, hidx, List.mem_append]
              exact Or.inr hmem

theorem submit_results_silent_ok (cfg : ReporterConfig) (ora : Oracle)
    (results : List TestResult) (hs : cfg.silent = true) :
    (submit_results cfg ora results).2 = Except.ok () := by
  unfold submit_results
  split
  · rfl
  · exact (submitBatches_silent_ok cfg ora hs (batch_list results cfg.batch_size) 1).1

theorem submit_results_mem (cfg : ReporterConfig) (ora : Oracle)
    (results : List TestResult) (hs : cfg.silent = true) :
    ∀ j (h : j < (batch_list results cfg.batch_size).length),
      Event.submitCall (1 + j) ((batch_list results cfg.batch_size).get ⟨j, h⟩)
        ∈ (submit_results cfg ora results).1 := by
  intro j h
  unfold submit_results
  split
  · next hemp =>
      rw [List.isEmpty_iff] at hemp
      rw [hemp, batch_list_nil] at h
      cases h
  · have hmem :=
      (submitBatches_silent_ok cfg ora hs (batch_list results cfg.batch_size) 1).2 j h
    simp only [List.mem_append]
    exact Or.inr hmem

theorem submit_results_events (cfg : ReporterConfig) (ora : Oracle)
    (results : List TestResult) :
    ∀ e ∈ (submit_results cfg ora results).1,
      e = Event.logMsg ∨ e = Event.errorLog ∨ ∃ j b, e = Event.submitCall j b := by
  intro e he
  unfold submit_results at he
  split at he
  · exact Or.inl (logIf_events cfg e he)
  · simp only [List.mem_append] at he
    rcases he with h1 | h1
    · exact Or.inl (logIf_events cfg e h1)
    · exact submitBatches_events cfg ora _ 1 e h1

theorem logIf_no_close (cfg : ReporterConfig) :
    Event.closeCall ∉ logIf cfg :=
  fun h => Event.noConfusion (logIf_events cfg _ h)

theorem submit_results_no_close (cfg : ReporterConfig) (ora : Oracle)
    (results : List TestResult) :
    Event.closeCall ∉ (submit_results cfg ora results).1 := by
  intro h
  rcases submit_results_events cfg ora results _ h with h1 | h1 | ⟨j, b, h1⟩ <;>
    exact Event.noConfusion h1

theorem submit_results_no_complete (cfg : ReporterConfig) (ora : Oracle)
    (results : List TestResult) (s : TestRunSummary) :
    Event.completeCall s ∉ (submit_results cfg ora results).1 := by
  intro h
  rcases submit_results_events cfg ora results _ h with h1 | h1 | ⟨j, b, h1⟩ <;>
    exact Event.noConfusion h1

/-- C3 counterexample: on the early-return path taken when no run id is
held, `pytest_sessionfinish` never calls the client's `close()`. -/
theorem close_skipped_without_run_id :
    initState.test_run_id = none ∧
    Event.closeCall ∉ (pytest_sessionfinish cfgSilent oraOk initState).1 := by
  decide

/-- C3 (amended): whenever a (truthy) run id is held at session finish,
`close()` is called exactly once — as the last event — on every exit path
of the submission/completion block, including error paths; on the
no-run-id early return, `close()` is not called at all. -/
theorem close_called_exactly_once (cfg : ReporterConfig) (ora : Oracle)
    (st : PluginState) (hid : optFalsy st.test_run_id = false) :
    ∃ l, (pytest_sessionfinish cfg ora st).1 = l ++ [Event.closeCall] ∧
      Event.closeCall ∉ l := by
  unfold pytest_sessionfinish
  simp only [hid, Bool.false_eq_true, if_false]
  cases hsub : (submit_results cfg ora st.results).2 with
  | error e =>
      refine ⟨_, rfl, ?_⟩
      intro hmem
      simp only [List.mem_append] at hmem
      rcases hmem with ((h1 | h1) | h1) | h1
      · exact logIf_no_close cfg h1
      · exact logIf_no_close cfg h1
      · exact logIf_no_close cfg h1
      · exact submit_results_no_close cfg ora st.results h1
  | ok u =>
      cases hcr : ora.completeRun with
      | ok v =>
          refine ⟨_, rfl, ?_⟩
          intro hmem
          simp only [List.mem_append, List.mem_singleton] at hmem
          rcases hmem with ((((h1 | h1) | h1) | h1) | h1) | h1
          · exact logIf_no_close cfg h1
          · exact logIf_no_close cfg h1
          · exact logIf_no_close cfg h1
          · exact submit_results_no_close cfg ora st.results h1
          · exact Event.noConfusion h1
          · exact logIf_no_close cfg h1
      | error e =>
          refine ⟨_, rfl, ?_⟩
          intro hmem
          simp only [List.mem_append, List.mem_singleton] at hmem
          rcases hmem with ((((h1 | h1) | h1) | h1) | h1) | h1
          · exact logIf_no_close cfg h1
          · exact logIf_no_close cfg h1
          · exact logIf_no_close cfg h1
          · exact submit_results_no_close cfg ora st.results h1
          · exact Event.noConfusion h1
          · exact Event.noConfusion (handle_error_events cfg e _ h1)

/-- C3 witness: a held run id with an all-success oracle. -/
theorem close_called_exactly_once_witness :
    optFalsy stThree.test_run_id = false ∧
    (∃ l, (pytest_sessionfinish cfgSilent oraOk stThree).1 =
        l ++ [Event.closeCall] ∧ Event.closeCall ∉ l) :=
  ⟨by decide, close_called_exactly_once cfgSilent oraOk stThree (by decide)⟩

/-- C2: in silent mode with a run id held, every batch is attempted (the
`j`-th batch's submission request appears in the part of the trace before
the completion request, whatever the oracle answers), and the complete-run
call with the counter summary is made after all of them. -/
theorem silent_finish_best_effort (cfg : ReporterConfig) (ora : Oracle)
    (st : PluginState) (hs : cfg.silent = true)
    (hid : optFalsy st.test_run_id = false) :
    ∃ l₁ l₂,
      (pytest_sessionfinish cfg ora st).1 =
        l₁ ++ Event.completeCall (mkSummary st) :: l₂ ∧
      Event.completeCall (mkSummary st) ∉ l₁ ∧
      ∀ j (h : j < (batch_list st.results cfg.batch_size).length),
        Event.submitCall (1 + j)
          ((batch_list st.results cfg.batch_size).get ⟨j, h⟩) ∈ l₁ := by
  have hnotmem : Event.completeCall (mkSummary st) ∉
      logIf cfg ++ logIf cfg ++ logIf cfg ++ (submit_results cfg ora st.results).1 := by
    intro hmem
    rcases List.mem_append.mp hmem with h1 | h1
    · rcases List.mem_append.mp h1 with h2 | h2
      · rcases List.mem_append.mp h2 with h3 | h3
        · exact Event.noConfusion (logIf_events cfg _ h3)
        · exact Event.noConfusion (logIf_events cfg _ h3)
      · exact Event.noConfusion (logIf_events cfg _ h2)
    · exact submit_results_no_complete cfg ora st.results (mkSummary st) h1
  unfold pytest_sessionfinish
  simp only [hid, Bool.false_eq_true, if_false,
    submit_results_silent_ok cfg ora st.results hs]
  cases hcr : ora.completeRun with
  | ok v =>
      refine ⟨logIf cfg ++ logIf cfg ++ logIf cfg ++ (submit_results cfg ora st.results).1,
        logIf cfg ++ [Event.closeCall], ?_, hnotmem, ?_⟩
      · simp [List.append_assoc]
      · intro j h
        simp only [List.mem_append]
        exact Or.inr (submit_results_mem cfg ora st.results hs j h)
  | error e =>
      refine ⟨logIf cfg ++ logIf cfg ++ logIf cfg ++ (submit_results cfg ora st.results).1,
        [Event.errorLog, Event.closeCall], ?_, hnotmem, ?_⟩
      · simp [handle_error_silent cfg e hs, List.append_assoc]
      · intro j h
        simp only [List.mem_append]
        exact Or.inr (submit_results_mem cfg ora st.results hs j h)

/-- C2 witness: three results, batch size 2, the first batch failing. -/
theorem silent_finish_best_effort_witness :
    cfgSilent.silent = true ∧ optFalsy stThree.test_run_id = false ∧
    (∃ l₁ l₂,
      (pytest_sessionfinish cfgSilent oraBatch1Fails stThree).1 =
        l₁ ++ Event.completeCall (mkSummary stThree) :: l₂ ∧
      Event.completeCall (mkSummary stThree) ∉ l₁ ∧
      ∀ j (h : j < (batch_list stThree.results cfgSilent.batch_size).length),
        Event.submitCall (1 + j)
          ((batch_list stThree.results cfgSilent.batch_size).get ⟨j, h⟩) ∈ l₁) :=
  ⟨rfl, by decide,
   silent_finish_best_effort cfgSilent oraBatch1Fails stThree rfl (by decide)⟩

/-- C7 counterexample: with zero accumulated results but a held run id,
a non-silent configuration and a failing complete-run request,
`pytest_sessionfinish` propagates an error — the claim's "does not fail"
does not hold unconditionally. -/
theorem empty_finish_can_fail :
    stEmptyRun.results = [] ∧
    (pytest_sessionfinish cfgRaise oraCompleteFails stEmptyRun).2 =
      Except.error (Raised.wrapped err503) :=
  ⟨rfl, rfl⟩

/-- C7 (amended): with zero accumulated results no submission request is
ever issued, and the empty result list itself causes no failure: the
finish succeeds whenever no run id is held, or silent mode is on, or the
completion request succeeds. -/
theorem empty_finish_no_submission (cfg : ReporterConfig) (ora : Oracle)
    (st : PluginState) (h : st.results = []) :
    (∀ i b, Event.submitCall i b ∉ (pytest_sessionfinish cfg ora st).1) ∧
    ((cfg.silent = true ∨ ora.completeRun = Except.ok () ∨
        optFalsy st.test_run_id = true) →
      (pytest_sessionfinish cfg ora st).2 = Except.ok ()) := by
  have hsub : submit_results cfg ora st.results = (logIf cfg, Except.ok ()) := by
    rw [h]
    rfl
  constructor
  · intro i b hmem
    cases hid : optFalsy st.test_run_id with
    | true =>
        exact Event.noConfusion ((sessionfinish_skips cfg ora st hid).1 _ hmem)
    | false =>
        unfold pytest_sessionfinish at hmem
        simp only [hid, Bool.false_eq_true, if_false, hsub] at hmem
        cases hcr : ora.completeRun with
        | ok v =>
            rw [hcr] at hmem
            cases hv : cfg.verbose <;> simp [logIf, hv] at hmem
        | error e =>
            rw [hcr] at hmem
            cases hv : cfg.verbose <;> cases hsil : cfg.silent <;>
              simp [logIf, handle_error, hv, hsil] at hmem
  · intro hok
    cases hid : optFalsy st.test_run_id with
    | true => exact (sessionfinish_skips cfg ora st hid).2
    | false =>
        unfold pytest_sessionfinish
        simp only [hid, Bool.false_eq_true, if_false, hsub]
        cases hcr : ora.completeRun with
        | ok v => rfl
        | error e =>
            rcases hok with hs | hcr2 | hid2
            · simp [handle_error_silent cfg e hs]
            · rw [hcr2] at hcr
              exact Except.noConfusion hcr
            · rw [hid2] at hid
              exact Bool.noConfusion hid

/-- C7 witness: empty results, run id held, all-success oracle: no
submission request and a successful finish. -/
theorem empty_finish_no_submission_witness :
    stEmptyRun.results = [] ∧
    (pytest_sessionfinish cfgSilent oraOk stEmptyRun).2 = Except.ok () :=
  ⟨rfl, (empty_finish_no_submission cfgSilent oraOk stEmptyRun rfl).2
    (Or.inl rfl)⟩

end QAStudio
